import Mathlib

/-! PIC12F1840 / TM1637 library demo

A shallow embedding of `PIC12F1840_libdemo.c`: the special-function registers
and the file-scope variables form an explicit program state, each statement of
`main` and of `initialise12F1840` is a state transformer, and every call that
`main` makes is recorded, in order, in a trace.

The display library (`TM1637PIC.c`) is not part of the source file; the
formatting contract it implements is modelled further down from the
specification text.
-/

namespace TM1637Demo

/-! ## Program state -/

/-- Special-function registers of the PIC12F1840 that the program names,
plus every other address. -/
inductive Reg where
  | OSCCON
  | PORTA
  | LATA
  | TRISA
  | CM1CON0
  | OPTION_REG
  | ANSELA
  | ADCON0
  | other (addr : Nat)
  deriving DecidableEq, Repr

/-- Calls made by `main`, in the order they are made. -/
inductive Event where
  | delay_ms (ms : Nat)
  | initialise12F1840
  | tm1637initialise (portTris portPins portLatch : Reg)
      (dioBit clkBit dispType brightness : Nat)
  | tm1637output (outputInteger decimalPos round ldgZeroB rightShift : Nat)
  deriving DecidableEq, Repr

/-- The registers, the non-const file-scope variables, and the calls made so far. -/
structure State where
  reg : Reg → Nat
  portLatch : Reg
  portPins : Reg
  portTris : Reg
  dioBit : Nat
  clkBit : Nat
  decimalPos : Nat
  round : Nat
  ldgZeroB : Nat
  rightShift : Nat
  trace : List Event

/-- Value stored in a `uint8_t`. -/
def u8 (x : Nat) : Nat := x % 2 ^ 8

/-- Value stored in a `uint32_t`. -/
def u32 (x : Nat) : Nat := x % 2 ^ 32

/-! ## Constants of the source file -/

def DISPLAY4DIG1TO4 : Nat := 1
def DISPLAY6DIG1TO6 : Nat := 6
def DISPLAY6DIG321654 : Nat := 7

def trisTM1637 : Nat := 0b00010001
def dispType : Nat := DISPLAY4DIG1TO4
def brightness : Nat := 2
def portDefault : Nat := 0

/-- Number of digits of a display type, as the comments on the three
`#define`s give it: type 1 is the 4 digit display, types 6 and 7 are 6 digit. -/
def maxDigits (dt : Nat) : Nat := if dt = DISPLAY4DIG1TO4 then 4 else 6

/-- File-scope initialisers; the registers start from an arbitrary `reg0`. -/
def initState (reg0 : Reg → Nat) : State where
  reg := reg0
  portLatch := Reg.LATA
  portPins := Reg.PORTA
  portTris := Reg.TRISA
  dioBit := u8 4
  clkBit := u8 0
  decimalPos := u8 99
  round := u8 0
  ldgZeroB := u8 0
  rightShift := u8 0
  trace := []

/-! ## Statements -/

/-- Assignment to an 8 bit register: `r = v;`, a store to that register alone. -/
def writeReg (r : Reg) (v : Nat) (s : State) : State :=
  { s with reg := fun x => if x = r then u8 v else s.reg x }

/-- Record a call in the trace. The two library functions receive the
file-scope variables by value and the port through the three pointers; what
they do to the port registers is not part of this file and is not modelled. -/
def call (e : Event) (s : State) : State :=
  { s with trace := s.trace ++ [e] }

/-- Body of `void initialise12F1840()`. -/
def initialise12F1840 (s : State) : State :=
  let s := writeReg Reg.OSCCON 0b11110000 s
  let s := writeReg Reg.PORTA portDefault s
  let s := writeReg Reg.TRISA trisTM1637 s
  let s := writeReg Reg.CM1CON0 7 s
  let s := writeReg Reg.OPTION_REG 0b10001000 s
  let s := writeReg Reg.ANSELA 0 s
  let s := writeReg Reg.ADCON0 0 s
  s

/-- The local `float number`, read exactly: the decimal literal it is assigned
is kept as `mant / 10 ^ scale`, with no binary rounding. -/
structure Decimal where
  mant : Nat
  scale : Nat
  deriving DecidableEq, Repr

/-- Statement `number *= k` for an integer constant `k`. -/
def Decimal.mulNat (d : Decimal) (k : Nat) : Decimal := ⟨d.mant * k, d.scale⟩

/-- Cast `(uint32_t)number`: the fractional part is discarded. -/
def Decimal.toUint32 (d : Decimal) : Nat := u32 (d.mant / 10 ^ d.scale)

/-- Statements of `main` up to, not including, the final `while(1);`. -/
def mainBody (s : State) : State :=
  -- `uint32_t outputInteger = 0;` is overwritten before its first use
  let s := call (.delay_ms 100) s
  let s := initialise12F1840 (call .initialise12F1840 s)
  let s := call (.tm1637initialise s.portTris s.portPins s.portLatch s.dioBit s.clkBit
    dispType brightness) s
  let outputInteger := u32 1234
  let s := call (.tm1637output outputInteger s.decimalPos s.round s.ldgZeroB s.rightShift) s
  let s := call (.delay_ms 1000) s
  let outputInteger := u32 1
  let s := call (.tm1637output outputInteger s.decimalPos s.round s.ldgZeroB s.rightShift) s
  let s := call (.delay_ms 1000) s
  let outputInteger := u32 1
  let s := { s with ldgZeroB := u8 1 }
  let s := call (.tm1637output outputInteger s.decimalPos s.round s.ldgZeroB s.rightShift) s
  let s := call (.delay_ms 1000) s
  let number : Decimal := ⟨9999, 2⟩
  let number := number.mulNat 100
  let outputInteger := number.toUint32
  let s := { s with decimalPos := u8 1 }
  let s := call (.tm1637output outputInteger s.decimalPos s.round s.ldgZeroB s.rightShift) s
  let s := call (.delay_ms 1000) s
  let number : Decimal := ⟨1046, 2⟩
  let number := number.mulNat 100
  let outputInteger := number.toUint32
  let s := { s with round := u8 1 }
  let s := call (.tm1637output outputInteger s.decimalPos s.round s.ldgZeroB s.rightShift) s
  let s := call (.delay_ms 2000) s
  let s := { s with rightShift := u8 1 }
  let s := { s with decimalPos := u8 2 }
  let s := call (.tm1637output outputInteger s.decimalPos s.round s.ldgZeroB s.rightShift) s
  let s := call (.delay_ms 2000) s
  s

/-- The final `while(1);`: `n` passes through the empty loop body. -/
def haltLoop : Nat → State → State
  | 0, s => s
  | n + 1, s => haltLoop n s

/-- State of `main` started from the file-scope initialisers once the final loop has
gone round `n` times. -/
def main (n : Nat) (reg0 : Reg → Nat) : State :=
  haltLoop n (mainBody (initState reg0))

/-! ## Reading the trace -/

/-- Arguments of one `tm1637output` call. -/
structure OutputCall where
  value : Nat
  decimalPos : Nat
  round : Nat
  ldgZeroB : Nat
  rightShift : Nat
  deriving DecidableEq, Repr

def Event.isInitialise : Event → Bool
  | .tm1637initialise .. => true
  | _ => false

def Event.isOutput : Event → Bool
  | .tm1637output .. => true
  | _ => false

/-- The `tm1637output` calls of a trace, in order. -/
def outputCalls : List Event → List OutputCall
  | [] => []
  | .tm1637output v d r l sh :: rest => ⟨v, d, r, l, sh⟩ :: outputCalls rest
  | _ :: rest => outputCalls rest

/-- The whole trace of `main`, written out. -/
def demoTrace : List Event :=
  [ .delay_ms 100,
    .initialise12F1840,
    .tm1637initialise Reg.TRISA Reg.PORTA Reg.LATA 4 0 1 2,
    .tm1637output 1234 99 0 0 0,
    .delay_ms 1000,
    .tm1637output 1 99 0 0 0,
    .delay_ms 1000,
    .tm1637output 1 99 0 1 0,
    .delay_ms 1000,
    .tm1637output 9999 1 0 1 0,
    .delay_ms 1000,
    .tm1637output 1046 1 1 1 0,
    .delay_ms 2000,
    .tm1637output 1046 2 1 1 1,
    .delay_ms 2000 ]

/-! ## The formatting contract

`tm1637output` is defined in `TM1637PIC.c`, which is not among the sources.
The definitions of this section follow the specification's description of
the formatter, step by step. -/

/-- Modelled from the spec: the per-digit display code of `tm1637output`
(`TM1637PIC.c`, absent). The segment pattern is kept abstract: `digit` is
`some d` for the glyph of decimal digit `d` and `none` for the blank code
(all segments off); `dp` is the decimal-point flag. -/
structure DisplayCode where
  digit : Option Nat
  dp : Bool
  deriving DecidableEq, Repr

/-- Modelled from the spec: the digit-order layout of `tm1637output`
(`TM1637PIC.c`, absent): left to right, or a configurable lookup table giving,
for each physical position, the logical digit shown there. -/
inductive DigitOrder where
  | leftToRight
  | lookup (table : List Nat)
  deriving DecidableEq, Repr

/-- Modelled from the spec: step 1 of `tm1637output` (`TM1637PIC.c`, absent).
When `roundDigits > 0` the value is rounded at the `roundDigits`-th decimal
digit from the least-significant end, half up on that digit, and all digits
below the rounding point are forced to zero; the carry goes into the higher
digits. -/
def roundHalfUp (value roundDigits : Nat) : Nat :=
  if 0 < roundDigits then
    let zeroed := value / 10 ^ roundDigits * 10 ^ roundDigits
    if 5 ≤ value / 10 ^ (roundDigits - 1) % 10 then zeroed + 10 ^ roundDigits else zeroed
  else value

/-- Modelled from the spec: step 2 of `tm1637output` (`TM1637PIC.c`, absent).
The `rightShift` least-significant digits are discarded by integer division
by `10 ^ rightShift`. -/
def shiftRight (value rightShift : Nat) : Nat := value / 10 ^ rightShift

/-- Modelled from the spec: step 3 of `tm1637output` (`TM1637PIC.c`, absent).
Position `i` carries the decimal point when the decimal position is given,
lies within `[0, digitCount - 1]` and is `i`; otherwise no digit carries it. -/
def pointAt (decimalPosition : Option Nat) (digitCount i : Nat) : Bool :=
  match decimalPosition with
  | some p => decide (p < digitCount) && decide (p = i)
  | none => false

/-- Modelled from the spec: steps 4 and 6 of `tm1637output` (`TM1637PIC.c`,
absent). The value is decomposed into `digitCount` base-10 digits, most
significant first; a value needing more digits keeps its low-order
`digitCount` digits. -/
def extractDigits (value digitCount : Nat) : List Nat :=
  (List.range digitCount).map fun i => value / 10 ^ (digitCount - 1 - i) % 10

/-- Modelled from the spec: step 5 of `tm1637output` (`TM1637PIC.c`, absent).
Scanning from the most significant position, each leading zero is replaced by
the blank code; the scan stops at the first non-zero digit or at the digit
that carries the decimal point, whichever comes first. -/
def blankLeading : List DisplayCode → List DisplayCode
  | [] => []
  | c :: rest =>
    if c.digit = some 0 ∧ c.dp = false then { c with digit := none } :: blankLeading rest
    else c :: rest

/-- Modelled from the spec: the physical arrangement of the logical codes
under a digit-order layout (`TM1637PIC.c`, absent). -/
def arrange (order : DigitOrder) (codes : List DisplayCode) : List DisplayCode :=
  match order with
  | .leftToRight => codes
  | .lookup table => table.map fun k => codes.getD k ⟨none, false⟩

/-- Modelled from the spec: the codes in logical order, steps 1 to 6 of
`tm1637output` (`TM1637PIC.c`, absent). -/
def formatLogical (value : Nat) (decimalPosition : Option Nat) (roundDigits : Nat)
    (blankLeadingZeros : Bool) (rightShift digitCount : Nat) : List DisplayCode :=
  let rounded := roundHalfUp value roundDigits
  let shifted := shiftRight rounded rightShift
  let digits := extractDigits shifted digitCount
  let codes := (List.range digitCount).zipWith
    (fun i d => (⟨some d, pointAt decimalPosition digitCount i⟩ : DisplayCode)) digits
  if blankLeadingZeros then blankLeading codes else codes

/-- Modelled from the spec: the contract
`format(value, decimalPosition, roundDigits, blankLeadingZeros, rightShift,
digitCount, digitOrder)` of `tm1637output` (`TM1637PIC.c`, absent). -/
def format (value : Nat) (decimalPosition : Option Nat) (roundDigits : Nat)
    (blankLeadingZeros : Bool) (rightShift digitCount : Nat) (order : DigitOrder) :
    List DisplayCode :=
  arrange order (formatLogical value decimalPosition roundDigits blankLeadingZeros rightShift
    digitCount)

/-- Modelled from the spec: what one `tm1637output` call of the demo formats
(`TM1637PIC.c`, absent), on the configured display: the `uint8_t` decimal
position is a digit index, the `uint8_t` flag `ldgZeroB` is true when
non-zero, and the digit count is that of `dispType`. -/
def formatCall (c : OutputCall) : List DisplayCode :=
  format c.value (some c.decimalPos) c.round (c.ldgZeroB != 0) c.rightShift
    (maxDigits dispType) .leftToRight

/-- Modelled from the spec: the characters a display code shows; the decimal
point is illuminated after its digit (glossary, "Decimal position"). -/
def DisplayCode.chars (c : DisplayCode) : List Char :=
  (match c.digit with
    | some d => Nat.digitChar d
    | none => ' ') :: (if c.dp then ['.'] else [])

/-- Modelled from the spec: the text a digit sequence displays, left to right. -/
def render (codes : List DisplayCode) : String :=
  String.mk (codes.flatMap DisplayCode.chars)

/-! ## Lemmas on the demo -/

theorem haltLoop_eq (n : Nat) (s : State) : haltLoop n s = s := by
  induction n with
  | zero => rfl
  | succ k ih => simpa [haltLoop] using ih

theorem mainBody_trace (reg0 : Reg → Nat) : (mainBody (initState reg0)).trace = demoTrace := by
  rfl

theorem main_trace (n : Nat) (reg0 : Reg → Nat) : (main n reg0).trace = demoTrace := by
  rw [main, haltLoop_eq, mainBody_trace]


theorem roundHalfUp_dvd (value roundDigits sh : Nat) (h : sh ≤ roundDigits) :
    10 ^ sh ∣ roundHalfUp value roundDigits := by
  have hp : 10 ^ sh ∣ 10 ^ roundDigits := pow_dvd_pow 10 h
  unfold roundHalfUp
  by_cases hr : 0 < roundDigits
  · simp only [hr, if_true]
    split
    · exact dvd_add (Dvd.dvd.mul_left hp _) hp
    · exact Dvd.dvd.mul_left hp _
  · have h0 : sh = 0 := by omega
    subst h0
    simp

/-! ## The demo script -/

/-- C1: in the trace of calls made by main, tm1637initialise is called exactly
once, initialise12F1840 is called before it, and no tm1637output call comes
before it: all six output calls come after it. This holds however long the
final loop runs. -/
theorem C1_initialise_once_before_output (n : Nat) (reg0 : Reg → Nat) :
    ((main n reg0).trace.filter Event.isInitialise).length = 1 ∧
    ∃ before after pt pp pl dio clk dt br,
      (main n reg0).trace = before ++ Event.tm1637initialise pt pp pl dio clk dt br :: after ∧
      Event.initialise12F1840 ∈ before ∧
      (∀ e ∈ before, e.isOutput = false) ∧
      (after.filter Event.isOutput).length =
        ((main n reg0).trace.filter Event.isOutput).length := by
  rw [main_trace]
  refine ⟨by decide, [.delay_ms 100, .initialise12F1840], demoTrace.drop 3,
    Reg.TRISA, Reg.PORTA, Reg.LATA, 4, 0, 1, 2, rfl, by decide, by decide, by decide⟩

/-- C2: started from the file-scope initialisers (decimalPos 99, round 0,
ldgZeroB 0, rightShift 0), with the two float products read exactly as 9999
and 1046, main makes exactly six tm1637output calls, with the argument tuples
(1234,99,0,0,0), (1,99,0,0,0), (1,99,0,1,0), (9999,1,0,1,0), (1046,1,1,1,0),
(1046,2,1,1,1) in this order, and the final loop adds no call. -/
theorem C2_six_output_calls (n : Nat) (reg0 : Reg → Nat) :
    (initState reg0).decimalPos = 99 ∧ (initState reg0).round = 0 ∧
    (initState reg0).ldgZeroB = 0 ∧ (initState reg0).rightShift = 0 ∧
    ((⟨9999, 2⟩ : Decimal).mulNat 100).toUint32 = 9999 ∧
    ((⟨1046, 2⟩ : Decimal).mulNat 100).toUint32 = 1046 ∧
    outputCalls (main n reg0).trace =
      [⟨1234, 99, 0, 0, 0⟩, ⟨1, 99, 0, 0, 0⟩, ⟨1, 99, 0, 1, 0⟩,
       ⟨9999, 1, 0, 1, 0⟩, ⟨1046, 1, 1, 1, 0⟩, ⟨1046, 2, 1, 1, 1⟩] ∧
    ((main n reg0).trace.filter Event.isOutput).length = 6 ∧
    (main n reg0).trace = (mainBody (initState reg0)).trace := by
  rw [main_trace, mainBody_trace]
  exact ⟨rfl, rfl, rfl, rfl, by decide, by decide, by decide, by decide, rfl⟩

/-- C6: the display is configured as the 4 digit type, and every tm1637output
call of main passes a value of at most 9999, a round of at most 4 and a
decimalPos that is either a digit index 0..3 or at least 4; the first three
calls pass 99 and the last three pass an index 0..3. -/
theorem C6_output_arguments_in_range (n : Nat) (reg0 : Reg → Nat) :
    dispType = DISPLAY4DIG1TO4 ∧ maxDigits dispType = 4 ∧
    (∀ c ∈ outputCalls (main n reg0).trace,
      c.value ≤ 9999 ∧ c.round ≤ 4 ∧ (c.decimalPos ≤ 3 ∨ 4 ≤ c.decimalPos)) ∧
    (outputCalls (main n reg0).trace).length = 6 ∧
    (∀ c ∈ (outputCalls (main n reg0).trace).take 3, c.decimalPos = 99) ∧
    (∀ c ∈ (outputCalls (main n reg0).trace).drop 3, c.decimalPos ≤ 3) := by
  rw [main_trace]
  decide

/-- C7: initialise12F1840 leaves decimalPos, round, ldgZeroB, rightShift,
dioBit, clkBit, the three port pointers and the call trace unchanged; every
register other than OSCCON, PORTA, TRISA, CM1CON0, OPTION_REG, ANSELA and
ADCON0 keeps its value; and those seven hold the constants the function
assigns. -/
theorem C7_initialise12F1840_frame (s : State) :
    (initialise12F1840 s).decimalPos = s.decimalPos ∧
    (initialise12F1840 s).round = s.round ∧
    (initialise12F1840 s).ldgZeroB = s.ldgZeroB ∧
    (initialise12F1840 s).rightShift = s.rightShift ∧
    (initialise12F1840 s).dioBit = s.dioBit ∧
    (initialise12F1840 s).clkBit = s.clkBit ∧
    (initialise12F1840 s).portLatch = s.portLatch ∧
    (initialise12F1840 s).portPins = s.portPins ∧
    (initialise12F1840 s).portTris = s.portTris ∧
    (initialise12F1840 s).trace = s.trace ∧
    (∀ r : Reg, r ∉ [Reg.OSCCON, Reg.PORTA, Reg.TRISA, Reg.CM1CON0, Reg.OPTION_REG,
        Reg.ANSELA, Reg.ADCON0] → (initialise12F1840 s).reg r = s.reg r) ∧
    (initialise12F1840 s).reg Reg.OSCCON = 0b11110000 ∧
    (initialise12F1840 s).reg Reg.PORTA = 0 ∧
    (initialise12F1840 s).reg Reg.TRISA = 0b00010001 ∧
    (initialise12F1840 s).reg Reg.CM1CON0 = 7 ∧
    (initialise12F1840 s).reg Reg.OPTION_REG = 0b10001000 ∧
    (initialise12F1840 s).reg Reg.ANSELA = 0 ∧
    (initialise12F1840 s).reg Reg.ADCON0 = 0 := by
  refine ⟨rfl, rfl, rfl, rfl, rfl, rfl, rfl, rfl, rfl, rfl, ?_, rfl, rfl, rfl, rfl, rfl, rfl, rfl⟩
  intro r hr
  simp only [List.mem_cons, List.mem_singleton, List.not_mem_nil, or_false, not_or] at hr
  obtain ⟨h1, h2, h3, h4, h5, h6, h7⟩ := hr
  simp [initialise12F1840, writeReg, h1, h2, h3, h4, h5, h6, h7]

/-- C8: in the trace of main, every tm1637output call is immediately followed
by a delay_ms call of at least 1000 ms, so a delay stands between any two
output calls and between the last output call and the final loop. -/
theorem C8_output_followed_by_delay (n : Nat) (reg0 : Reg → Nat) (i v d r l sh : Nat)
    (h : (main n reg0).trace[i]? = some (.tm1637output v d r l sh)) :
    ∃ ms, (main n reg0).trace[i + 1]? = some (.delay_ms ms) ∧ 1000 ≤ ms := by
  rw [main_trace] at h ⊢
  have hi : i < 15 := by
    rcases Nat.lt_or_ge i demoTrace.length with h1 | h1
    · exact h1
    · rw [List.getElem?_eq_none h1] at h
      cases h
  interval_cases i <;> simp [demoTrace] at h ⊢

theorem C8_output_followed_by_delay_witness :
    (main 0 (fun _ => 0)).trace[3]? = some (.tm1637output 1234 99 0 0 0) ∧
    ∃ ms, (main 0 (fun _ => 0)).trace[3 + 1]? = some (.delay_ms ms) ∧ 1000 ≤ ms :=
  ⟨rfl, C8_output_followed_by_delay 0 (fun _ => 0) 3 1234 99 0 0 0 rfl⟩

/-- C9: main passes portTris = TRISA, dioBit = 4 and clkBit = 0 to
tm1637initialise, and the value initialise12F1840 has written to TRISA is
trisTM1637 = (1 << dioBit) | (1 << clkBit): of the eight TRIS bits exactly
bit 0 (clock) and bit 4 (data) are set, so every other pin, the LED pin RA2
among them, is configured as an output. -/
theorem C9_tris_matches_pins (n : Nat) (reg0 : Reg → Nat) :
    ∃ pp pl dio clk dt br,
      Event.tm1637initialise Reg.TRISA pp pl dio clk dt br ∈ (main n reg0).trace ∧
      dio = 4 ∧ clk = 0 ∧
      trisTM1637 = (1 <<< dio) ||| (1 <<< clk) ∧
      (initialise12F1840 (initState reg0)).reg Reg.TRISA = (1 <<< dio) ||| (1 <<< clk) ∧
      (∀ i < 8, trisTM1637.testBit i = true ↔ (i = clk ∨ i = dio)) ∧
      trisTM1637.testBit 2 = false := by
  rw [main_trace]
  exact ⟨Reg.PORTA, Reg.LATA, 4, 0, 1, 2, by decide, rfl, rfl, by decide, rfl,
    by decide, by decide⟩

/-! ## The formatter on the demo's inputs -/

/-- C3: formatting 1046 with roundDigits 1, decimalPosition 1 on 4 digits
gives the digits 1,0,5,0 with the decimal point on position 1, shown as
"10.50" and not "10.40"; the fifth tm1637output call of main is this
format call. -/
theorem C3_rounding_with_carry (n : Nat) (reg0 : Reg → Nat) (b : Bool) :
    roundHalfUp 1046 1 = 1050 ∧
    format 1046 (some 1) 1 b 0 4 .leftToRight =
      [⟨some 1, false⟩, ⟨some 0, true⟩, ⟨some 5, false⟩, ⟨some 0, false⟩] ∧
    render (format 1046 (some 1) 1 b 0 4 .leftToRight) = "10.50" ∧
    render (format 1046 (some 1) 1 b 0 4 .leftToRight) ≠ "10.40" ∧
    (outputCalls (main n reg0).trace)[4]? = some ⟨1046, 1, 1, 1, 0⟩ ∧
    formatCall ⟨1046, 1, 1, 1, 0⟩ = format 1046 (some 1) 1 true 0 4 .leftToRight := by
  rw [main_trace]
  cases b <;> decide

/-- C4 (as stated, refuted): value 1046 with round 1, or the already rounded
1050, formatted with rightShift 1, decimalPosition 2 and leading-zero blanking
on 4 digits, does not display " 1.05"; neither does the sixth tm1637output
call of main. -/
theorem C4_not_1_05 :
    render (format 1046 (some 2) 1 true 1 4 .leftToRight) ≠ " 1.05" ∧
    render (format 1050 (some 2) 0 true 1 4 .leftToRight) ≠ " 1.05" ∧
    render (formatCall ⟨1046, 2, 1, 1, 1⟩) ≠ " 1.05" := by
  decide

/-- C4 (amended): the sixth tm1637output call of main formats value 1046 with
round 1, rightShift 1, decimalPos 2 and leading-zero blanking on 4 digits:
rounding gives 1050, the shift discards the trailing zero to give 105, the
leftmost digit is blank, the decimal point is on position 2, and the display
shows " 10.5". Formatting the already rounded 1050, with or without rounding
by one digit, gives the same. -/
theorem C4_right_shift_after_rounding (n : Nat) (reg0 : Reg → Nat) :
    (outputCalls (main n reg0).trace)[5]? = some ⟨1046, 2, 1, 1, 1⟩ ∧
    formatCall ⟨1046, 2, 1, 1, 1⟩ = format 1046 (some 2) 1 true 1 4 .leftToRight ∧
    roundHalfUp 1046 1 = 1050 ∧ shiftRight 1050 1 = 105 ∧
    format 1046 (some 2) 1 true 1 4 .leftToRight =
      [⟨none, false⟩, ⟨some 1, false⟩, ⟨some 0, true⟩, ⟨some 5, false⟩] ∧
    format 1050 (some 2) 0 true 1 4 .leftToRight =
      format 1046 (some 2) 1 true 1 4 .leftToRight ∧
    format 1050 (some 2) 1 true 1 4 .leftToRight =
      format 1046 (some 2) 1 true 1 4 .leftToRight ∧
    render (format 1046 (some 2) 1 true 1 4 .leftToRight) = " 10.5" := by
  rw [main_trace]
  decide

/-- C5: on 4 digits, formatting 1 without leading-zero blanking gives the
digits 0,0,0,1, all shown, and with blanking gives three blank codes followed
by the digit 1; these are the second and third tm1637output calls of main,
which differ only in ldgZeroB (0, then 1). -/
theorem C5_leading_zero_blanking (n : Nat) (reg0 : Reg → Nat) :
    format 1 none 0 false 0 4 .leftToRight =
      [⟨some 0, false⟩, ⟨some 0, false⟩, ⟨some 0, false⟩, ⟨some 1, false⟩] ∧
    format 1 none 0 true 0 4 .leftToRight =
      [⟨none, false⟩, ⟨none, false⟩, ⟨none, false⟩, ⟨some 1, false⟩] ∧
    (outputCalls (main n reg0).trace)[1]? = some ⟨1, 99, 0, 0, 0⟩ ∧
    (outputCalls (main n reg0).trace)[2]? = some ⟨1, 99, 0, 1, 0⟩ ∧
    formatCall ⟨1, 99, 0, 0, 0⟩ = format 1 none 0 false 0 4 .leftToRight ∧
    formatCall ⟨1, 99, 0, 1, 0⟩ = format 1 none 0 true 0 4 .leftToRight ∧
    render (formatCall ⟨1, 99, 0, 0, 0⟩) = "0001" ∧
    render (formatCall ⟨1, 99, 0, 1, 0⟩) = "   1" := by
  rw [main_trace]
  decide

/-- C10: every tm1637output call of main has rightShift ≤ round, and the
shift discards only digits that rounding has forced to zero (shifting the
rounded value right and back left returns the rounded value); the only call
with rightShift 1 has round 1, and for it roundHalfUp 1046 1 = 1050 and
1050 / 10 = 105 with remainder 0. For any value, a shift by at most the
number of rounded digits discards zeros only. -/
theorem C10_shift_only_after_rounding (n : Nat) (reg0 : Reg → Nat) :
    (∀ c ∈ outputCalls (main n reg0).trace,
      c.rightShift ≤ c.round ∧
      shiftRight (roundHalfUp c.value c.round) c.rightShift * 10 ^ c.rightShift
        = roundHalfUp c.value c.round) ∧
    (outputCalls (main n reg0).trace).filter (fun c => c.rightShift != 0)
      = [⟨1046, 2, 1, 1, 1⟩] ∧
    roundHalfUp 1046 1 = 1050 ∧
    shiftRight (roundHalfUp 1046 1) 1 = 105 ∧
    roundHalfUp 1046 1 % 10 ^ 1 = 0 ∧
    (∀ value roundDigits sh : Nat, sh ≤ roundDigits →
      roundHalfUp value roundDigits % 10 ^ sh = 0 ∧
      shiftRight (roundHalfUp value roundDigits) sh * 10 ^ sh
        = roundHalfUp value roundDigits) := by
  rw [main_trace]
  refine ⟨by decide, by decide, by decide, by decide, by decide, ?_⟩
  intro value roundDigits sh h
  have hd := roundHalfUp_dvd value roundDigits sh h
  exact ⟨Nat.mod_eq_zero_of_dvd hd, Nat.div_mul_cancel hd⟩

end TM1637Demo
